import Mathlib

/-!
Verification of the session/operation-resilience engine of the
homebridge-dlink-wifi-smart-plug-dsp-w215 plugin (src/index.js and the code
listings embedded in src/README.md).  The definitions below are shallow
embeddings of the JavaScript source: pure fragments become Lean functions,
the stateful fragments become explicit state types with step functions, and
the asynchronous interleavings of the single-threaded JavaScript event loop
become traces of atomic blocks (each block is a maximal run-to-completion
code region between awaits / callbacks).
-/

namespace DLinkPlug

/-! ## Token error classification (src/README.md lines 572-578, `_isTokenError`)

JavaScript: `code === 424 || lower.includes("invalid device token") ||
lower.includes("invalid token") || lower.includes("token expired")` where
`lower` is the error message lower-cased. -/

/-- Boolean sublist test on character lists: does the pattern occur as a
contiguous substring? Mirrors JavaScript `String.prototype.includes`. -/
def subListB (pat : List Char) : List Char → Bool
  | [] => pat.isEmpty
  | c :: rest => pat.isPrefixOf (c :: rest) || subListB pat rest

/-- Substring containment on strings, mirroring `msg.includes(pat)`. -/
def containsSub (s pat : String) : Bool :=
  subListB pat.data s.data

/-- Lower-casing of a string, mirroring `String.prototype.toLowerCase`
applied to the ASCII error messages the plugin produces. -/
def lowerString (s : String) : String :=
  ⟨s.data.map Char.toLower⟩

/-- Embeds `_isTokenError` (src/README.md lines 572-578): an error is
credential-class iff its `code` is 424 or its lower-cased message contains
one of three fixed substrings. -/
def isTokenErrorB (code : Option Nat) (msg : String) : Bool :=
  code == some 424
    || containsSub (lowerString msg) "invalid device token"
    || containsSub (lowerString msg) "invalid token"
    || containsSub (lowerString msg) "token expired"

/-- The message of the error thrown when the login loop exits without a
result (src/README.md line 710). -/
def abortedLoginMessage : String := "Login aborted: shutting down or retries exhausted"

/-! ## Failure escalation policy (src/README.md lines 581-598, `_handleCriticalFailure`) -/

/-- Outcome of `_handleCriticalFailure`: either a `process.exit(code)` is
scheduled after a grace delay in milliseconds, or the plugin only logs and
stays loaded in degraded mode. -/
inductive EscalationAction
  | scheduleExit (code : Nat) (graceDelayMs : Nat)
  | logOnlyDegraded
  deriving DecidableEq

/-- Embeds `_handleCriticalFailure` (src/README.md lines 581-598): child
bridge instances schedule `process.exit(2)` after 1 s regardless of the
force flag; otherwise `forceRestartOnFailure` schedules `process.exit(1)`
after 1 s; otherwise the handler only logs. -/
def handleCriticalFailure (runningAsChildBridge forceRestartOnFailure : Bool) :
    EscalationAction :=
  if runningAsChildBridge then .scheduleExit 2 1000
  else if forceRestartOnFailure then .scheduleExit 1 1000
  else .logOnlyDegraded

/-! ## Construction options and client replacement (src/README.md lines 495-550,
constructor, and lines 716-748, `refreshTokenAndReconnect`) -/

/-- The `this.options` object built once in the constructor from the user
configuration (src/README.md lines 504-508). -/
structure PlugOptions where
  ip : String
  pin : String
  useTelnetForToken : Bool
  deriving DecidableEq

/-- The state of a `WebSocketClient` instance that the plugin observes: the
options it was constructed from determine its fields, and `setPin` mutates
only its `pin`. -/
structure WSClient where
  ip : String
  pin : String
  useTelnetForToken : Bool
  deriving DecidableEq

/-- `new WebSocketClient(this.options)`: the client is created from the
options object, so its pin is the configured pin. -/
def newWebSocketClient (o : PlugOptions) : WSClient :=
  { ip := o.ip, pin := o.pin, useTelnetForToken := o.useTelnetForToken }

/-- `client.setPin(newToken)`: mutates the pin of that client object only. -/
def setPin (c : WSClient) (newToken : String) : WSClient :=
  { c with pin := newToken }

/-- The user configuration fields relevant to options handling. -/
structure PlugConfig where
  ip : String
  pin : String
  useTelnetForToken : Bool
  deriving DecidableEq

/-- The mutable per-accessory state touched by the token workflows. -/
structure PlugState where
  options : PlugOptions
  client : WSClient
  shutdownRequested : Bool
  deriving DecidableEq

/-- Constructor (src/README.md lines 495-550): builds `this.options` from
the configuration and the initial client from those options. -/
def constructorInit (cfg : PlugConfig) : PlugState :=
  let opts : PlugOptions :=
    { ip := cfg.ip, pin := cfg.pin, useTelnetForToken := cfg.useTelnetForToken }
  { options := opts, client := newWebSocketClient opts, shutdownRequested := false }

/-- The state-mutating operations the plugin performs after construction,
as far as `options` and `client` are concerned. -/
inductive PlugStep
  /-- Periodic interval tick applying `setPin` to the current client
  (src/README.md lines 613-640). -/
  | periodicSetPin (newToken : String)
  /-- Token recovery inside the login loop applying `setPin`
  (src/README.md lines 674-692). -/
  | loginRecoverySetPin (newToken : String)
  /-- `refreshTokenAndReconnect` success path (src/README.md lines 724-740):
  `setPin(newToken)` on the current client, then the client is replaced by
  `new WebSocketClient(this.options)`; the old client is discarded. -/
  | refreshReconnect (newToken : String)
  /-- `shutdown()` (src/README.md lines 941-952). -/
  | shutdownStep

/-- One plugin operation applied to the state.  In the `refreshReconnect`
case the `setPin` lands on the client object that is immediately discarded,
so the surviving client is `newWebSocketClient s.options`. -/
def applyPlugStep (s : PlugState) : PlugStep → PlugState
  | .periodicSetPin t => { s with client := setPin s.client t }
  | .loginRecoverySetPin t => { s with client := setPin s.client t }
  | .refreshReconnect _ => { s with client := newWebSocketClient s.options }
  | .shutdownStep => { s with shutdownRequested := true }

/-! ## `ensureConnected` entry (src/README.md lines 650-658) -/

/-- What the synchronous prefix of `ensureConnected` does on a call. -/
inductive EntryResult
  /-- `throw new Error("Accessory shutting down")`. -/
  | threwShutdown
  /-- `return this.loginPromise` for the already pending handle. -/
  | returnedExisting (handle : Nat)
  /-- A fresh login attempt sequence was started and stored. -/
  | startedNew (handle : Nat)
  deriving DecidableEq

/-- The per-instance state the entry of `ensureConnected` reads and writes.
`loginPromise` holds the handle of the in-flight login attempt sequence, if
any; `nextHandle` names the next promise identity. -/
structure ConnState where
  shutdownRequested : Bool
  loginPromise : Option Nat
  nextHandle : Nat
  deriving DecidableEq

/-- Embeds the synchronous prefix of `ensureConnected` (src/README.md lines
650-658): throw when shutdown was requested; otherwise return the existing
`loginPromise` when one is set; otherwise install a new one. -/
def ensureConnectedEntry (s : ConnState) : EntryResult × ConnState :=
  if s.shutdownRequested then (.threwShutdown, s)
  else
    match s.loginPromise with
    | some h => (.returnedExisting h, s)
    | none =>
        (.startedNew s.nextHandle,
          { s with loginPromise := some s.nextHandle, nextHandle := s.nextHandle + 1 })

/-! ## Login retry loop (src/README.md lines 658-711, body of `ensureConnected`) -/

/-- Outcome of one `client.login()` call, as classified by `_isTokenError`:
`tokenErr` is a credential-class rejection (code 424 or a matching message),
`netErr` is any other rejection. -/
inductive LoginOutcome
  | ok
  | tokenErr
  | netErr
  deriving DecidableEq

/-- How the login loop ends. -/
inductive LoginResult
  /-- `return` after a successful `client.login()` on the given attempt. -/
  | success (attempt : Nat)
  /-- `throw new Error("Login failed after N attempts: ...")`. -/
  | terminal (attempts : Nat)
  /-- The `while` condition failed and the loop fell through to
  `throw new Error("Login aborted: shutting down or retries exhausted")`. -/
  | aborted
  deriving DecidableEq

/-- Observable trace of one run of the login loop. `loginCalls` counts
`client.login()` calls, `refreshCalls` counts `getTokenFromTelnet()` calls
made inside the loop, `refreshRetries` counts the login calls made by
iterations entered through the refresh-success `continue`, and `waits`
records the backoff delays actually awaited, in order. -/
structure LoopTrace where
  loginCalls : Nat
  refreshCalls : Nat
  refreshRetries : Nat
  waits : List Nat
  result : LoginResult
  deriving DecidableEq

/-- Embeds the `while (attempt < this.maxRetries && !this.shutdownRequested)`
loop of `ensureConnected` (src/README.md lines 658-711) with
`shutdownRequested` fixed to false (no shutdown happens during the run).
The fuel argument is `maxRetries - attempt` at the loop head; `callIdx`
indexes `client.login()` calls into the `login` script and `refreshIdx`
indexes `getTokenFromTelnet()` calls into the `refresh` script (`false`
covers both a null token and a telnet throw, which take the same control
path).  `viaRefresh` records whether this iteration was entered through the
refresh-success `continue`; the attempt number of the current iteration is
`callIdx + 1`.  On a credential-class failure with telnet enabled and a
successful refresh the loop continues immediately with the same `delay`;
otherwise, when attempts remain it awaits `delay` and doubles it capped at
30000 ms, and when none remain it throws the terminal error. -/
def loginLoopAux (login : Nat → LoginOutcome) (refresh : Nat → Bool) (useTelnet : Bool) :
    Nat → Nat → Nat → Nat → Bool → LoopTrace
  | 0, _, _, _, _ =>
      { loginCalls := 0, refreshCalls := 0, refreshRetries := 0, waits := [],
        result := .aborted }
  | r + 1, callIdx, refreshIdx, delay, viaRefresh =>
      let retryTally := if viaRefresh then 1 else 0
      match login callIdx with
      | .ok =>
          { loginCalls := 1, refreshCalls := 0, refreshRetries := retryTally,
            waits := [], result := .success (callIdx + 1) }
      | e =>
          let doRefresh := e == LoginOutcome.tokenErr && useTelnet
          let refreshCount := if doRefresh then 1 else 0
          if doRefresh && refresh refreshIdx then
            let rest :=
              loginLoopAux login refresh useTelnet r (callIdx + 1) (refreshIdx + 1) delay true
            { loginCalls := rest.loginCalls + 1,
              refreshCalls := rest.refreshCalls + refreshCount,
              refreshRetries := rest.refreshRetries + retryTally,
              waits := rest.waits, result := rest.result }
          else if r = 0 then
            { loginCalls := 1, refreshCalls := refreshCount,
              refreshRetries := retryTally, waits := [],
              result := .terminal (callIdx + 1) }
          else
            let rest :=
              loginLoopAux login refresh useTelnet r (callIdx + 1) (refreshIdx + refreshCount)
                (min (delay * 2) 30000) false
            { loginCalls := rest.loginCalls + 1,
              refreshCalls := rest.refreshCalls + refreshCount,
              refreshRetries := rest.refreshRetries + retryTally,
              waits := delay :: rest.waits, result := rest.result }

/-- One full run of the login attempt sequence started by `ensureConnected`:
`attempt` starts at 0 and `delay` at `initialRetryDelayMs`. -/
def ensureConnectedLoop (maxRetries initialDelayMs : Nat) (useTelnet : Bool)
    (login : Nat → LoginOutcome) (refresh : Nat → Bool) : LoopTrace :=
  loginLoopAux login refresh useTelnet maxRetries 0 0 initialDelayMs false

/-- Constructor resolution of `maxRetries` (src/README.md line 511):
`Number.isInteger(config.maxRetries) ? config.maxRetries : 5`.  `some n`
models an integer-valued `config.maxRetries`, `none` an absent or
non-integer one. -/
def resolveMaxRetries (configMaxRetries : Option Int) : Int :=
  match configMaxRetries with
  | some n => n
  | none => 5

/-- Transport calls made by the body of the timeout-enabled
`getPowerState` / `setPowerState` after `ensureConnected` rejected with the
given error (src/README.md lines 788-840): credential-class errors enter
the refresh-and-retry branch, any other error is delivered to the callback
with no further device traffic. -/
def opTransportCallsAfterLoginFailure (errCode : Option Nat) (errMsg : String) : Nat :=
  if isTokenErrorB errCode errMsg then 1 else 0

/-! ## Operation queue (src/README.md lines 600-610, `_enqueueOperation`)

`this._opQueue = this._opQueue.then(() => { if (this.shutdownRequested)
return Promise.reject(new Error("Accessory shutting down")); return fn();
}).catch(err => { return Promise.reject(err); })`.  A settled promise is
either fulfilled or rejected with an error message. -/

/-- Settled value of a promise in the operation chain. -/
inductive QueueOutcome
  | ok
  | err (msg : String)
  deriving DecidableEq

/-- The rejection installed by the shutdown check inside the chain. -/
def shutdownErrMsg : String := "Accessory shutting down"

/-- The submission-time effect of `_enqueueOperation`: the body is appended
to the promise chain unconditionally; no check runs at submission time. -/
structure SchedulerState where
  pending : List QueueOutcome
  shutdownRequested : Bool
  deriving DecidableEq

/-- `_enqueueOperation(fn)` at submission time: one more `.then` link is
chained after the existing queue. -/
def enqueueOperationSubmit (s : SchedulerState) (body : QueueOutcome) : SchedulerState :=
  { s with pending := s.pending ++ [body] }

/-- Settlement of one chain link when its turn arrives.  If the previous
link rejected, the `.then` fulfillment handler is skipped and the `.catch`
re-rejects with the same error, so the body never runs; otherwise the
shutdown flag (as read at that moment) decides between rejecting with the
shutdown error and running the body.  Returns the settled value of this
link and whether the body was executed. -/
def enqueueTurn (shutdownAtTurn : Bool) (prev : QueueOutcome) (body : QueueOutcome) :
    QueueOutcome × Bool :=
  match prev with
  | .err e => (.err e, false)
  | .ok => if shutdownAtTurn then (.err shutdownErrMsg, false) else (body, true)

/-- Settles the queued links in submission order, starting from the settled
value `init` of the chain head, with the shutdown flag constant (the source
sets `shutdownRequested` in `shutdown()` and never clears it).  The i-th
element of the result is the settlement of the i-th queued link, in the
order the settlements occur. -/
def processEntries (shutdown : Bool) (init : QueueOutcome) :
    List QueueOutcome → List (QueueOutcome × Bool)
  | [] => []
  | b :: rest =>
      let step := enqueueTurn shutdown init b
      step :: processEntries shutdown step.1 rest

/-! ## Timeout supervisor (src/README.md lines 764-938, timeout-enabled
`getPowerState` / `setPowerState`)

Both handlers create a `responded` flag and a `setTimeout` deadline, then
enqueue the operation body.  JavaScript runs each code region between
awaits / callbacks to completion, so an execution is a trace of atomic
blocks: the timer callback, at most one delivery block of the operation
body (`if (!responded) { clearTimeout(...); responded = true;
this._safeCallback(...) }`), or the queue-error `.catch` handler (which
calls `clearTimeout` unconditionally and delivers only when
`!responded`). -/

/-- What a delivery hands to the Homebridge callback. -/
inductive CbResponse
  | success
  | opError
  | timeout
  | queueError
  deriving DecidableEq

/-- Atomic blocks that can touch the `responded` flag of one operation. -/
inductive CbEvent
  /-- The `setTimeout` deadline callback firing (it only runs while the
  timer has not been cleared). -/
  | timerFire
  /-- A delivery block of the operation body: success (line 781), non-token
  error (line 829), or the post-refresh retry outcome (lines 802, 815). -/
  | deliver (r : CbResponse)
  /-- The `.catch(queueErr => ...)` handler (line 842). -/
  | queueErr
  deriving DecidableEq

/-- Per-operation supervisor state: the `responded` flag, whether the
deadline timer is still pending, and the responses delivered so far. -/
structure CbState where
  responded : Bool
  timerActive : Bool
  delivered : List CbResponse
  deriving DecidableEq

/-- State right after the handler installed the flag and the timer. -/
def cbInit : CbState :=
  { responded := false, timerActive := true, delivered := [] }

/-- Semantics of one atomic block.  The timer callback (lines 768-773) sets
`responded` and delivers the timeout error; a delivery block delivers only
when `!responded`, clearing the timer; the queue-error handler clears the
timer unconditionally and delivers only when `!responded`. -/
def cbStep (s : CbState) : CbEvent → CbState
  | .timerFire =>
      if s.timerActive then
        { responded := true, timerActive := false,
          delivered := s.delivered ++ [CbResponse.timeout] }
      else s
  | .deliver r =>
      if s.responded then s
      else
        { responded := true, timerActive := false, delivered := s.delivered ++ [r] }
  | .queueErr =>
      if s.responded then { s with timerActive := false }
      else
        { responded := true, timerActive := false,
          delivered := s.delivered ++ [CbResponse.queueError] }

/-- Runs a trace of atomic blocks from the post-installation state. -/
def runCallbackTrace (t : List CbEvent) : CbState :=
  t.foldl cbStep cbInit

/-- Is the event the timer callback? -/
def isTimerFire : CbEvent → Bool
  | .timerFire => true
  | _ => false

/-- Is the event one of the operation-side delivery blocks? -/
def isDeliverEvent : CbEvent → Bool
  | .timerFire => false
  | _ => true

/-! ## Token refresh single flight (src/README.md lines 716-748,
`refreshTokenAndReconnect`, and lines 613-640, `_startTokenUpdateInterval`) -/

/-- Shared refresh state: the `tokenUpdateInProgress` flag plus a count of
`getTokenFromTelnet()` fetches performed. -/
structure RefreshSys where
  tokenUpdateInProgress : Bool
  fetches : Nat
  deriving DecidableEq

/-- Where one caller of `refreshTokenAndReconnect` stands: still in the
`while (this.tokenUpdateInProgress) await sleep(200)` loop, fetching with
the flag held, or finished (flag released by the `finally`). -/
inductive RefPhase
  | entering
  | fetching
  | done
  deriving DecidableEq

/-- One atomic block of a `refreshTokenAndReconnect` caller.  Observing the
flag false, setting it, and starting the fetch happen in one synchronous
region (lines 719-727); completion plus the `finally` release is the next
region (lines 727-747). -/
def refreshCallerStep (s : RefreshSys) (p : RefPhase) : RefreshSys × RefPhase :=
  match p with
  | .entering =>
      if s.tokenUpdateInProgress then (s, .entering)
      else ({ tokenUpdateInProgress := true, fetches := s.fetches + 1 }, .fetching)
  | .fetching => ({ s with tokenUpdateInProgress := false }, .done)
  | .done => (s, .done)

/-- Entry of the periodic `setInterval` callback (lines 615-618): return
immediately when shutdown was requested or a refresh is in progress,
otherwise take the flag and start a fetch.  The boolean reports whether a
fetch began. -/
def periodicTickEnter (s : RefreshSys) (shutdown : Bool) : RefreshSys × Bool :=
  if shutdown then (s, false)
  else if s.tokenUpdateInProgress then (s, false)
  else ({ tokenUpdateInProgress := true, fetches := s.fetches + 1 }, true)

/-- Names the two overlapping callers in a schedule. -/
inductive RefCaller
  | A
  | B
  deriving DecidableEq

/-- Global state of the two-caller system. -/
structure TwoCallerState where
  sys : RefreshSys
  phaseA : RefPhase
  phaseB : RefPhase
  deriving DecidableEq

/-- Runs one scheduled atomic block of the named caller. -/
def twoCallerStep (st : TwoCallerState) : RefCaller → TwoCallerState
  | .A =>
      let (s, p) := refreshCallerStep st.sys st.phaseA
      { st with sys := s, phaseA := p }
  | .B =>
      let (s, p) := refreshCallerStep st.sys st.phaseB
      { st with sys := s, phaseB := p }

/-- Runs a schedule of atomic blocks of the two callers. -/
def runTwoCallers (sched : List RefCaller) : TwoCallerState :=
  sched.foldl twoCallerStep
    { sys := { tokenUpdateInProgress := false, fetches := 0 },
      phaseA := .entering, phaseB := .entering }

/-! ## Helper lemmas (not tied to a single claim) -/

/-- For a transport whose login always fails with a network-class error,
each loop iteration makes exactly one login call and the run ends in the
terminal error naming `callIdx + fuel` attempts. -/
theorem loginLoopAux_netErr (refresh : Nat → Bool) (ut : Bool) :
    ∀ (r : Nat), 1 ≤ r → ∀ (callIdx refreshIdx delay : Nat) (via : Bool),
      (loginLoopAux (fun _ => .netErr) refresh ut r callIdx refreshIdx delay via).loginCalls = r
      ∧ (loginLoopAux (fun _ => .netErr) refresh ut r callIdx refreshIdx delay via).result
          = .terminal (callIdx + r) := by
  intro r
  induction r with
  | zero => intro h; exact absurd h (by omega)
  | succ n ih =>
    intro _ callIdx refreshIdx delay via
    by_cases hn : n = 0
    · subst hn; simp [loginLoopAux]
    · have h1 : 1 ≤ n := Nat.one_le_iff_ne_zero.mpr hn
      have hrec := ih h1 (callIdx + 1) refreshIdx (min (delay * 2) 30000) false
      have harith : callIdx + 1 + n = callIdx + (n + 1) := by omega
      simp [loginLoopAux, hn, hrec.1, hrec.2, harith]

/-- All backoff delays actually awaited stay below the 30000 ms cap,
provided the initial delay does. -/
theorem loginLoopAux_waits_le_cap (login : Nat → LoginOutcome) (refresh : Nat → Bool)
    (ut : Bool) :
    ∀ (r callIdx refreshIdx delay : Nat) (via : Bool), delay ≤ 30000 →
      ∀ w ∈ (loginLoopAux login refresh ut r callIdx refreshIdx delay via).waits,
        w ≤ 30000 := by
  intro r
  induction r with
  | zero => intro callIdx refreshIdx delay via hd w hw; simp [loginLoopAux] at hw
  | succ n ih =>
    intro callIdx refreshIdx delay via hd w hw
    simp only [loginLoopAux] at hw
    split at hw
    · simp at hw
    · split at hw
      · exact ih (callIdx + 1) (refreshIdx + 1) delay true hd w hw
      · split at hw
        · simp at hw
        · simp only [List.mem_cons] at hw
          rcases hw with hw | hw
          · omega
          · exact ih (callIdx + 1) _ (min (delay * 2) 30000) false
              (min_le_right _ _) w hw

/-- The loop never makes more login calls than it has fuel (iterations). -/
theorem loginLoopAux_calls_le (login : Nat → LoginOutcome) (refresh : Nat → Bool)
    (ut : Bool) :
    ∀ (r callIdx refreshIdx delay : Nat) (via : Bool),
      (loginLoopAux login refresh ut r callIdx refreshIdx delay via).loginCalls ≤ r := by
  intro r
  induction r with
  | zero => intro callIdx refreshIdx delay via; simp [loginLoopAux]
  | succ n ih =>
    intro callIdx refreshIdx delay via
    simp only [loginLoopAux]
    split
    · simp
    · split
      · dsimp only
        exact Nat.succ_le_succ (ih _ _ _ _)
      · split
        · simp
        · dsimp only
          exact Nat.succ_le_succ (ih _ _ _ _)

/-- With a transport that always fails with a credential-class error and a
telnet refresh that always succeeds, every iteration is consumed by a
refresh-triggered retry and the loop exits through the aborted branch after
exactly `fuel` login calls. -/
theorem loginLoopAux_tokenAlways :
    ∀ (r callIdx refreshIdx delay : Nat) (via : Bool),
      (loginLoopAux (fun _ => .tokenErr) (fun _ => true) true r callIdx refreshIdx delay via).loginCalls = r
      ∧ (loginLoopAux (fun _ => .tokenErr) (fun _ => true) true r callIdx refreshIdx delay via).result
          = .aborted := by
  intro r
  induction r with
  | zero => intro callIdx refreshIdx delay via; simp [loginLoopAux]
  | succ n ih =>
    intro callIdx refreshIdx delay via
    have hrec := ih (callIdx + 1) (refreshIdx + 1) delay true
    simp [loginLoopAux, hrec.1, hrec.2]

/-- Every settlement produced while `shutdownRequested` is true has an
unexecuted body and a rejected value. -/
theorem processEntries_shutdown :
    ∀ (entries : List QueueOutcome) (init : QueueOutcome),
      ∀ res ∈ processEntries true init entries,
        res.2 = false ∧ ∃ m, res.1 = QueueOutcome.err m := by
  intro entries
  induction entries with
  | nil => intro init res h; simp [processEntries] at h
  | cons b rest ih =>
    intro init res h
    simp only [processEntries, List.mem_cons] at h
    rcases h with h | h
    · subst h
      cases init with
      | ok => exact ⟨rfl, shutdownErrMsg, rfl⟩
      | err e => exact ⟨rfl, e, rfl⟩
    · exact ih _ res h

/-- Settling the chain produces one settlement per queued link. -/
theorem processEntries_length (shutdown : Bool) :
    ∀ (entries : List QueueOutcome) (init : QueueOutcome),
      (processEntries shutdown init entries).length = entries.length := by
  intro entries
  induction entries with
  | nil => intro init; rfl
  | cons b rest ih => intro init; simp [processEntries, ih]

/-! ## Claim theorems -/

/-- C6: the failure escalation policy implements the decision table on its
two boolean inputs: a child-bridge (isolated) instance schedules
`process.exit(2)` after the 1 s grace delay regardless of
`forceRestartOnFailure`; a non-isolated instance with the force flag set
schedules `process.exit(1)`; a non-isolated instance without it only logs
and schedules no exit; and the two exit paths are distinct. -/
theorem handleCriticalFailure_decisionTable :
    handleCriticalFailure true false = .scheduleExit 2 1000
    ∧ handleCriticalFailure true true = .scheduleExit 2 1000
    ∧ handleCriticalFailure false true = .scheduleExit 1 1000
    ∧ handleCriticalFailure false false = .logOnlyDegraded
    ∧ handleCriticalFailure true false ≠ handleCriticalFailure false true := by
  decide

/-- C9: `this.options` is never mutated after the constructor runs: every
modeled post-construction operation leaves `options` unchanged (hence any
sequence of them does), and the replacement client built by
`refreshTokenAndReconnect` is constructed from `this.options`, so it
carries the originally configured pin and not the newly fetched token
(whenever the two differ). -/
theorem options_immutable_refresh_usesOriginalPin :
    (∀ (s : PlugState) (st : PlugStep), (applyPlugStep s st).options = s.options)
    ∧ (∀ (cfg : PlugConfig) (steps : List PlugStep),
        (steps.foldl applyPlugStep (constructorInit cfg)).options
          = (constructorInit cfg).options)
    ∧ (∀ (s : PlugState) (t : String),
        (applyPlugStep s (.refreshReconnect t)).client.pin = s.options.pin)
    ∧ (∀ (s : PlugState) (t : String), t ≠ s.options.pin →
        (applyPlugStep s (.refreshReconnect t)).client.pin ≠ t) := by
  have hstep : ∀ (s : PlugState) (st : PlugStep), (applyPlugStep s st).options = s.options := by
    intro s st; cases st <;> rfl
  refine ⟨hstep, ?_, ?_, ?_⟩
  · intro cfg steps
    suffices h : ∀ (l : List PlugStep) (s : PlugState),
        (l.foldl applyPlugStep s).options = s.options by exact h steps _
    intro l
    induction l with
    | nil => intro s; rfl
    | cons st rest ih => intro s; rw [List.foldl_cons, ih, hstep]
  · intro s t; rfl
  · intro s t hne heq
    exact hne (by rw [← heq]; rfl)

/-- C9 witness: the amended-free property applied at a concrete state where
the fetched token differs from the configured pin. -/
theorem options_immutable_refresh_usesOriginalPin_witness :
    ("ABCD" : String) ≠ (constructorInit ⟨"192.168.0.2", "1234", true⟩).options.pin
    ∧ (applyPlugStep (constructorInit ⟨"192.168.0.2", "1234", true⟩)
        (.refreshReconnect "ABCD")).client.pin ≠ "ABCD" :=
  ⟨by decide,
    options_immutable_refresh_usesOriginalPin.2.2.2
      (constructorInit ⟨"192.168.0.2", "1234", true⟩) "ABCD" (by decide)⟩

/-- C2 counterexample: in a state where a login attempt sequence is in
flight (`loginPromise = some 0`) but shutdown has been requested, a call to
`ensureConnected` throws the shutdown error instead of returning the
pending handle, so the claim quantified over every state with a non-null
`loginPromise` fails. -/
theorem ensureConnected_singleFlight_counterexample :
    (ensureConnectedEntry
        { shutdownRequested := true, loginPromise := some 0, nextHandle := 1 }).1
      = .threwShutdown
    ∧ EntryResult.threwShutdown ≠ EntryResult.returnedExisting 0 := by
  decide

/-- C2 amended: in every state where a login attempt sequence is in flight
and shutdown has not been requested, `ensureConnected` returns that same
pending handle and changes nothing — no second attempt sequence starts.
(`loginPromise : Option Nat` holds at most one handle by construction, so at
most one login attempt sequence exists per instance.) -/
theorem ensureConnected_singleFlight_amended (s : ConnState) (h : Nat)
    (hs : s.shutdownRequested = false) (hp : s.loginPromise = some h) :
    ensureConnectedEntry s = (.returnedExisting h, s) := by
  simp [ensureConnectedEntry, hs, hp]

/-- C2 witness: the amended single-flight property at a concrete pending
state. -/
theorem ensureConnected_singleFlight_amended_witness :
    ({ shutdownRequested := false, loginPromise := some 7, nextHandle := 9 } :
        ConnState).shutdownRequested = false
    ∧ ({ shutdownRequested := false, loginPromise := some 7, nextHandle := 9 } :
        ConnState).loginPromise = some 7
    ∧ ensureConnectedEntry
        { shutdownRequested := false, loginPromise := some 7, nextHandle := 9 }
      = (.returnedExisting 7,
          { shutdownRequested := false, loginPromise := some 7, nextHandle := 9 }) :=
  ⟨rfl, rfl,
    ensureConnected_singleFlight_amended
      { shutdownRequested := false, loginPromise := some 7, nextHandle := 9 } 7 rfl rfl⟩

/-- C3: with `maxRetries = 3`, initial delay 1000 ms and a transport whose
login always fails with a network-class error, the loop makes exactly 3
login calls, awaits 1000 ms then 2000 ms, and ends in the terminal session
error; for every `maxRetries` of at least 1 the login call count equals
`maxRetries`; every awaited delay respects the 30000 ms cap whenever the
initial delay does; and with 8 configured attempts the doubling sequence
visibly saturates at the cap. -/
theorem ensureConnected_networkRetry_spec :
    (ensureConnectedLoop 3 1000 false (fun _ => .netErr) (fun _ => false)
      = { loginCalls := 3, refreshCalls := 0, refreshRetries := 0,
          waits := [1000, 2000], result := .terminal 3 })
    ∧ (∀ (n : Nat), 1 ≤ n → ∀ (d : Nat) (ut : Bool) (refresh : Nat → Bool),
        (ensureConnectedLoop n d ut (fun _ => .netErr) refresh).loginCalls = n
        ∧ (ensureConnectedLoop n d ut (fun _ => .netErr) refresh).result = .terminal n)
    ∧ (∀ (n d : Nat) (ut : Bool) (login : Nat → LoginOutcome) (refresh : Nat → Bool),
        d ≤ 30000 →
        ∀ w ∈ (ensureConnectedLoop n d ut login refresh).waits, w ≤ 30000)
    ∧ (ensureConnectedLoop 8 1000 false (fun _ => .netErr) (fun _ => false)).waits
      = [1000, 2000, 4000, 8000, 16000, 30000, 30000] := by
  refine ⟨by decide, ?_, ?_, by decide⟩
  · intro n hn d ut refresh
    have h := loginLoopAux_netErr refresh ut n hn 0 0 d false
    exact ⟨h.1, by simpa using h.2⟩
  · intro n d ut login refresh hd
    exact loginLoopAux_waits_le_cap login refresh ut n 0 0 d false hd

/-- C3 witness: the quantified parts of the retry specification applied at
concrete inputs (`maxRetries = 2`, initial delay 500 ms), with each
hypothesis discharged. -/
theorem ensureConnected_networkRetry_spec_witness :
    (1 : Nat) ≤ 2
    ∧ (500 : Nat) ≤ 30000
    ∧ (ensureConnectedLoop 2 500 false (fun _ => .netErr) (fun _ => false)).loginCalls = 2
    ∧ (500 ∈ (ensureConnectedLoop 2 500 false (fun _ => .netErr) (fun _ => false)).waits
        → (500 : Nat) ≤ 30000) :=
  ⟨by decide, by decide,
    (ensureConnected_networkRetry_spec.2.1 2 (by decide) 500 false (fun _ => false)).1,
    fun hm =>
      ensureConnected_networkRetry_spec.2.2.1 2 500 false (fun _ => .netErr)
        (fun _ => false) (by decide) 500 hm⟩

/-- C4 counterexample: with `maxRetries = 2`, a first login failing with a
credential-class error, a successful telnet refresh and a second login
failing with a network-class error, the run ends terminally after only 2
login calls although one of them was the refresh-triggered retry — the
retry consumed a loop attempt, so the total is not
`maxRetries + refreshRetries` as the claim (retry costs no attempt) would
require. -/
theorem refreshRetry_consumesAttempt_counterexample :
    (ensureConnectedLoop 2 1000 true (fun i => if i = 0 then .tokenErr else .netErr)
        (fun _ => true)).result = .terminal 2
    ∧ (ensureConnectedLoop 2 1000 true (fun i => if i = 0 then .tokenErr else .netErr)
        (fun _ => true)).refreshRetries = 1
    ∧ ¬ ((ensureConnectedLoop 2 1000 true (fun i => if i = 0 then .tokenErr else .netErr)
          (fun _ => true)).loginCalls
        = 2 + (ensureConnectedLoop 2 1000 true (fun i => if i = 0 then .tokenErr else .netErr)
            (fun _ => true)).refreshRetries) := by
  decide

/-- C4 amended: after a credential-class login failure with a successful
on-demand refresh, the next login call happens immediately — no backoff
delay is awaited for that failure (the concrete run waits only the 1000 ms
of its first, network-class failure) — but the refresh-triggered retry is a
normal loop iteration and consumes a retry attempt: the loop never makes
more than `maxRetries` login calls, and when every login fails with a
credential-class error and every refresh succeeds it makes exactly
`maxRetries` calls and then fails. -/
theorem refreshRetry_immediate_amended :
    (ensureConnectedLoop 3 1000 true (fun i => if i = 1 then .tokenErr else .netErr)
        (fun _ => true)
      = { loginCalls := 3, refreshCalls := 1, refreshRetries := 1,
          waits := [1000], result := .terminal 3 })
    ∧ (∀ (n d : Nat) (ut : Bool) (login : Nat → LoginOutcome) (refresh : Nat → Bool),
        (ensureConnectedLoop n d ut login refresh).loginCalls ≤ n)
    ∧ (∀ (n d : Nat),
        (ensureConnectedLoop n d true (fun _ => .tokenErr) (fun _ => true)).loginCalls = n
        ∧ (ensureConnectedLoop n d true (fun _ => .tokenErr) (fun _ => true)).result
            = .aborted) := by
  refine ⟨by decide, ?_, ?_⟩
  · intro n d ut login refresh
    exact loginLoopAux_calls_le login refresh ut n 0 0 d false
  · intro n d
    exact loginLoopAux_tokenAlways n 0 0 d false

/-- C10: an integer `config.maxRetries = 0` is accepted as configured (the
default 5 is not substituted), the login loop then makes zero login calls
and exits through the aborted branch, and the resulting error message is
not credential-class, so the operation body delivers it to the callback
without any device transport call. -/
theorem maxRetriesZero_noLoginCalls :
    resolveMaxRetries (some 0) = 0
    ∧ (∀ (d : Nat) (ut : Bool) (login : Nat → LoginOutcome) (refresh : Nat → Bool),
        ensureConnectedLoop 0 d ut login refresh
          = { loginCalls := 0, refreshCalls := 0, refreshRetries := 0, waits := [],
              result := .aborted })
    ∧ isTokenErrorB none abortedLoginMessage = false
    ∧ opTransportCallsAfterLoginFailure none abortedLoginMessage = 0 := by
  refine ⟨rfl, fun d ut login refresh => rfl, by decide, by decide⟩

/-- C7 counterexample: submitting while `shutdownRequested` is true with
one operation already queued appends the new request to the chain (the
queue grows from 1 to 2 links) and its shutdown rejection settles second,
after the predecessor settles — the request is enqueued and its rejection
waits for the queue, contradicting the claimed immediate rejection without
enqueueing. -/
theorem enqueue_afterShutdown_counterexample :
    (enqueueOperationSubmit { pending := [.ok], shutdownRequested := true } .ok).pending.length
      = 2
    ∧ ({ pending := [.ok], shutdownRequested := true } : SchedulerState).pending.length = 1
    ∧ (2 : Nat) ≠ 1
    ∧ processEntries true .ok
        (enqueueOperationSubmit { pending := [.ok], shutdownRequested := true } .ok).pending
      = [(.err shutdownErrMsg, false), (.err shutdownErrMsg, false)] := by
  decide

/-- C7 amended: a request submitted while `shutdownRequested` is true is
appended to the chain; when its turn arrives — after every previously
queued link settles, one settlement per link — its body is never executed
and it settles rejected (with the shutdown error when the chain head was
fulfilled, otherwise inheriting the prior rejection). -/
theorem enqueue_afterShutdown_amended (pending : List QueueOutcome) (body : QueueOutcome)
    (init : QueueOutcome) :
    (processEntries true init
        (enqueueOperationSubmit { pending := pending, shutdownRequested := true } body).pending).length
      = pending.length + 1
    ∧ ∀ res ∈ processEntries true init
        (enqueueOperationSubmit { pending := pending, shutdownRequested := true } body).pending,
        res.2 = false ∧ ∃ m, res.1 = QueueOutcome.err m := by
  constructor
  · rw [processEntries_length]
    simp [enqueueOperationSubmit]
  · intro res h
    exact processEntries_shutdown _ init res h

/-- C7 witness: the amended property at a concrete queue with one
predecessor, with the membership hypothesis discharged on the settlement of
the submitted request. -/
theorem enqueue_afterShutdown_amended_witness :
    ((QueueOutcome.err shutdownErrMsg, false) ∈ processEntries true .ok
        (enqueueOperationSubmit { pending := [.ok], shutdownRequested := true } .ok).pending)
    ∧ ((QueueOutcome.err shutdownErrMsg, false).2 = false
        ∧ ∃ m, (QueueOutcome.err shutdownErrMsg, false).1 = QueueOutcome.err m) :=
  ⟨by decide,
    (enqueue_afterShutdown_amended [.ok] .ok .ok).2 (QueueOutcome.err shutdownErrMsg, false)
      (by decide)⟩

/-- C8: with the chain already rejected and shutdown not even requested,
the next submitted request with a body that would succeed never runs — the
`.then` fulfillment handler is skipped and the `.catch` re-rejects with the
inherited error, so the queue stays wedged for every later request.  This
contradicts the comment in `_enqueueOperation` itself (keep the chain
alive) and the spec, so the code is the bug. -/
theorem opQueue_wedge_bug :
    enqueueTurn false (.err "boom") .ok = (.err "boom", false)
    ∧ processEntries false (.err "boom") [.ok, .ok]
      = [(.err "boom", false), (.err "boom", false)] := by
  decide

/-- C1: for every complete interleaving of the atomic blocks that can touch
one operation of the timeout-enabled `getPowerState` / `setPowerState` —
the deadline timer callback fires at most once, and the single-threaded
operation body or queue-error handler contains at most one delivery block —
exactly one response (success, error, timeout, or queue error) is delivered
to the Homebridge callback: the `responded` flag suppresses every later
delivery.  Completeness of a trace means the deadline timer is no longer
pending at its end (it fired or was cleared); an execution that left the
timer pending has not finished yet. -/
theorem operationCallback_exactlyOnce (t : List CbEvent)
    (hT : t.countP isTimerFire ≤ 1) (hD : t.countP isDeliverEvent ≤ 1)
    (hFin : (runCallbackTrace t).timerActive = false) :
    (runCallbackTrace t).delivered.length = 1 := by
  match t with
  | [] => simp [runCallbackTrace, cbInit] at hFin
  | [e] =>
    cases e with
    | timerFire => simp [runCallbackTrace, cbStep, cbInit]
    | deliver r => simp [runCallbackTrace, cbStep, cbInit]
    | queueErr => simp [runCallbackTrace, cbStep, cbInit]
  | [e1, e2] =>
    cases e1 <;> cases e2 <;> simp [runCallbackTrace, cbStep, cbInit]
  | e1 :: e2 :: e3 :: rest =>
    exfalso
    cases e1 <;> cases e2 <;> cases e3 <;>
      simp [List.countP_cons, isTimerFire, isDeliverEvent] at hT hD

/-- C1 witness: the deadline fires first and the operation completion
arrives later; the trace is valid and complete and exactly one response is
delivered. -/
theorem operationCallback_exactlyOnce_witness :
    ([CbEvent.timerFire, CbEvent.deliver CbResponse.success].countP isTimerFire ≤ 1)
    ∧ ([CbEvent.timerFire, CbEvent.deliver CbResponse.success].countP isDeliverEvent ≤ 1)
    ∧ (runCallbackTrace [CbEvent.timerFire, CbEvent.deliver CbResponse.success]).timerActive
        = false
    ∧ (runCallbackTrace [CbEvent.timerFire, CbEvent.deliver CbResponse.success]).delivered.length
        = 1 :=
  ⟨by decide, by decide, by decide,
    operationCallback_exactlyOnce [CbEvent.timerFire, CbEvent.deliver CbResponse.success]
      (by decide) (by decide) (by decide)⟩

/-- C5 counterexample: caller A starts a refresh; caller B enters while it
is in progress and waits; A completes; B then performs its own second
out-of-band fetch — the system ends with 2 fetches where the claim (the
later caller observes the outcome of the first refresh rather than fetching
itself) requires 1. -/
theorem refresh_singleFlight_counterexample :
    (runTwoCallers [.A, .B, .A, .B, .B]).sys.fetches = 2
    ∧ (runTwoCallers [.A, .B, .A, .B, .B]).phaseA = .done
    ∧ (runTwoCallers [.A, .B, .A, .B, .B]).phaseB = .done
    ∧ (2 : Nat) ≠ 1 := by
  decide

/-- C5 amended: a caller of `refreshTokenAndReconnect` that finds a refresh
in progress blocks without fetching (its waiting step changes nothing), and
once the in-progress refresh completes it performs a second fetch of its
own rather than adopting the outcome of the first (the overlapping run
makes 2 fetches in total); a periodic timer tick that finds a refresh in
progress performs no fetch and changes nothing. -/
theorem refresh_singleFlight_amended :
    (∀ (s : RefreshSys), s.tokenUpdateInProgress = true →
        refreshCallerStep s .entering = (s, .entering))
    ∧ (runTwoCallers [.A, .B, .A, .B, .B]).sys.fetches = 2
    ∧ (∀ (s : RefreshSys) (sh : Bool), s.tokenUpdateInProgress = true →
        periodicTickEnter s sh = (s, false)) := by
  refine ⟨?_, by decide, ?_⟩
  · intro s h
    simp [refreshCallerStep, h]
  · intro s sh h
    cases sh <;> simp [periodicTickEnter, h]

/-- C5 witness: the amended blocking and skipping properties at a concrete
in-progress state. -/
theorem refresh_singleFlight_amended_witness :
    ({ tokenUpdateInProgress := true, fetches := 3 } : RefreshSys).tokenUpdateInProgress = true
    ∧ refreshCallerStep { tokenUpdateInProgress := true, fetches := 3 } .entering
        = ({ tokenUpdateInProgress := true, fetches := 3 }, .entering)
    ∧ periodicTickEnter { tokenUpdateInProgress := true, fetches := 3 } false
        = ({ tokenUpdateInProgress := true, fetches := 3 }, false) :=
  ⟨rfl, refresh_singleFlight_amended.1 { tokenUpdateInProgress := true, fetches := 3 } rfl,
    refresh_singleFlight_amended.2.2 { tokenUpdateInProgress := true, fetches := 3 } false rfl⟩

end DLinkPlug
